import Mathlib

/-!
Verification development for the ES request handler core
(biothings/web/api/es/handlers/base_handler.py): option cleaning,
the query pipeline with its hooks, and the error envelope formatter.

Modelling conventions:
  * An option bag (Python dotdict) is a record whose fields are Option-valued;
    a missing key reads as none, which is falsy, matching dotdict attribute
    access returning None for absent keys.
  * Python truthiness of an optional boolean flag is (·.getD false).
  * Statements that raise in Python are modelled with Except String; an
    Except.error value records the exception. The Finish control-flow signal
    raised by hooks is modelled by the hook returning Except Value, the
    error side carrying the payload the framework emits verbatim.
  * Plain serializable values (JSON scalars) are the Value type; a Python
    dict payload is an association list Dict preserving insertion order.
-/

namespace Biothings

/-- Plain serializable scalar values appearing in payloads and envelopes. -/
inductive Value where
  | null
  | bool (b : Bool)
  | nat (n : Nat)
  | str (s : String)
  deriving DecidableEq, Repr

/-- A Python dict payload: association list in insertion order. -/
abbrev Dict := List (String × Value)

/-- Python truthiness of an optional boolean (dotdict missing key is None). -/
def truthy (o : Option Bool) : Bool := o.getD false

/-- The value of the es stage option named source. Upstream it is a list of
field names; cleaning may replace it with boolean True, modelled by the
constructor all. -/
inductive SourceFilter where
  | fields (names : List String)
  | all
  deriving DecidableEq, Repr

/-- Control stage options. -/
structure ControlOptions where
  raw : Option Bool := none
  rawquery : Option Bool := none
  out_format : Option String := none
  deriving DecidableEq, Repr

/-- Query-build (esqb) stage options. -/
structure EsqbOptions where
  aggs : Option Bool := none
  facet_size : Option Nat := none
  ids : Option (List String) := none
  q : Option (List String) := none
  deriving DecidableEq, Repr

/-- Backend-execution (es) stage options. -/
structure EsOptions where
  fetch_all : Option Bool := none
  sort : Option String := none
  size : Option Nat := none
  _source : Option SourceFilter := none
  deriving DecidableEq, Repr

/-- Transform stage options. -/
structure TransformOptions where
  biothing_type : Option String := none
  templates : Option (List Dict) := none
  template_miss : Option Dict := none
  template_hit : Option Dict := none
  deriving DecidableEq, Repr

/-- The grouped Option Set handed to the pipeline. -/
structure OptionSet where
  control : ControlOptions := {}
  esqb : EsqbOptions := {}
  es : EsOptions := {}
  transform : TransformOptions := {}
  deriving DecidableEq, Repr

/-- Python `a or b` on two optional lists: a non-empty list is truthy and wins;
None or an empty list falls through to the right operand. -/
def py_or (a b : Option (List String)) : Option (List String) :=
  match a with
  | some l => if l.isEmpty then b else some l
  | none => b

/-- The esqb block of get_cleaned_options: facet_size is only relevant
for aggs, so it is popped when aggs is falsy. -/
def clean_esqb_stage (esqb : EsqbOptions) : EsqbOptions :=
  if truthy esqb.aggs then esqb else { esqb with facet_size := none }

/-- The fetch_all block of get_cleaned_options: no sorting or sizing
when scrolling. -/
def clean_fetch_all (es : EsOptions) : EsOptions :=
  if truthy es.fetch_all then { es with sort := none, size := none } else es

/-- The source block of get_cleaned_options. A present empty list is
popped; a list containing the sentinel "all" becomes boolean True. A boolean
True value reaching this block raises: Python evaluates a membership test on
a bool, a TypeError. -/
def clean_source (es : EsOptions) : Except String EsOptions :=
  match es._source with
  | none => Except.ok es
  | some (SourceFilter.fields names) =>
      if names.isEmpty then Except.ok { es with _source := none }
      else if names.contains "all" then
        Except.ok { es with _source := some SourceFilter.all }
      else Except.ok es
  | some SourceFilter.all =>
      Except.error "TypeError: argument of type bool is not iterable"

/-- The es stage of get_cleaned_options: the fetch_all block then the
source block. -/
def clean_es_stage (es : EsOptions) : Except String EsOptions :=
  clean_source (clean_fetch_all es)

/-- The transform stage of get_cleaned_options: the biothing type is always
injected; on POST the original query terms (ids, falling back to q) are echoed
into per-item templates. When both ids and q are falsy with q absent, Python
iterates None and raises a TypeError. -/
def clean_transform_stage (biothing_type method : String) (esqb : EsqbOptions)
    (t : TransformOptions) : Except String TransformOptions :=
  let t := { t with biothing_type := some biothing_type }
  if method = "POST" then
    match py_or esqb.ids esqb.q with
    | none => Except.error "TypeError: NoneType object is not iterable"
    | some queries =>
        Except.ok { t with
          templates := some (queries.map fun term => [("query", Value.str term)])
          template_miss := some [("notfound", Value.bool true)]
          template_hit := some ([] : Dict) }
  else Except.ok t

/-- ESRequestHandler.get_cleaned_options: cleans the esqb, es and transform
stages in source order; the control stage is untouched. An exception in the
es stage fires before one in the transform stage, matching statement order. -/
def get_cleaned_options (biothing_type method : String) (options : OptionSet) :
    Except String OptionSet :=
  match clean_es_stage options.es,
        clean_transform_stage biothing_type method options.esqb options.transform with
  | Except.ok es, Except.ok t =>
      Except.ok { control := options.control, esqb := clean_esqb_stage options.esqb,
                  es := es, transform := t }
  | Except.error e, _ => Except.error e
  | Except.ok _, Except.error e => Except.error e

/-- A built query: opaque except for its plain serializable form. -/
structure Query where
  to_dict : Value
  deriving DecidableEq, Repr

/-- The injected collaborators reached through web_settings: query builder,
backend executor and result transformer. -/
structure WebSettings where
  query_builder_build : EsqbOptions → Query
  query_backend_execute : Query → EsOptions → String → Value
  query_transform_transform : Value → TransformOptions → Value

/-- Pipeline stages that carry an observable invocation of a collaborator. -/
inductive Stage where
  | build
  | execute
  | transform
  deriving DecidableEq, Repr

/-- pre_query_builder_hook: identity by default. -/
def pre_query_builder_hook (options : OptionSet) : OptionSet := options

/-- pre_query_hook: raises Finish with the query in plain serializable form
when the rawquery control flag is truthy. -/
def pre_query_hook (options : OptionSet) (query : Query) : Except Value Query :=
  if truthy options.control.rawquery then Except.error query.to_dict
  else Except.ok query

/-- pre_transform_hook: raises Finish with the raw backend result when the
raw control flag is truthy. -/
def pre_transform_hook (options : OptionSet) (res : Value) : Except Value Value :=
  if truthy options.control.raw then Except.error res
  else Except.ok res

/-- pre_finish_hook: identity by default. -/
def pre_finish_hook (options : OptionSet) (res : Value) : Value := res

/-- ESRequestHandler.execute_pipeline. Returns the emitted payload paired
with the list of collaborator stages that actually ran, or the exception
text when cleaning raised. A Finish raised by a hook becomes a normal
emitted payload, bypassing the later stages. -/
def execute_pipeline (ws : WebSettings) (biothing_type method : String)
    (grouped_options : OptionSet) : Except String (Value × List Stage) :=
  match get_cleaned_options biothing_type method grouped_options with
  | Except.error e => Except.error e
  | Except.ok options =>
    let options := pre_query_builder_hook options
    let query := ws.query_builder_build options.esqb
    match pre_query_hook options query with
    | Except.error payload => Except.ok (payload, [Stage.build])
    | Except.ok query =>
      let res := ws.query_backend_execute query options.es biothing_type
      match pre_transform_hook options res with
      | Except.error payload => Except.ok (payload, [Stage.build, Stage.execute])
      | Except.ok res =>
        Except.ok (pre_finish_hook options (ws.query_transform_transform res options.transform),
                   [Stage.build, Stage.execute, Stage.transform])

/-- The exception available to write_error through exc_info. -/
inductive Exc where
  | badRequest (kwargs : Dict)
  | generic
  deriving DecidableEq, Repr

/-- First-match lookup in a dict payload. -/
def dictGet (d : Dict) (key : String) : Option Value :=
  match d with
  | [] => none
  | p :: rest => if p.1 = key then some p.2 else dictGet rest key

/-- Python dict assignment d[k] = v: overwrite in place when the key exists,
append otherwise. -/
def setKey (d : Dict) (k : String) (v : Value) : Dict :=
  if d.any (fun p => p.1 = k) then
    d.map (fun p => if p.1 = k then (k, v) else p)
  else d ++ [(k, v)]

/-- Python dict.update: fold the update pairs into the dict in order. -/
def dictUpdate (d upd : Dict) : Dict :=
  upd.foldl (fun acc p => setKey acc p.1 p.2) d

/-- The structured extra pairs write_error would merge: the kwargs of a
BadRequest exception, empty otherwise. -/
def excExtras : Option Exc → Dict
  | some (Exc.badRequest kwargs) => kwargs
  | _ => []

/-- The reason resolved by write_error: the explicit reason argument if
present, else the handler default reason. -/
def resolveReason (reasonArg : Option String) (defaultReason : String) : String :=
  reasonArg.getD defaultReason

/-- The Python membership test of the line-break character in the reason
string, over its character sequence. -/
def containsNewline (s : String) : Bool := s.data.contains '\n'

/-- BaseESRequestHandler.write_error: asserts the reason is single-line,
builds the code / success / error envelope and merges the kwargs of a
BadRequest exception when they are non-empty. -/
def write_error (status_code : Nat) (reasonArg : Option String)
    (defaultReason : String) (exc_info : Option Exc) : Except String Dict :=
  let reason := resolveReason reasonArg defaultReason
  if containsNewline reason then Except.error "AssertionError"
  else
    let message : Dict := [("code", Value.nat status_code),
                           ("success", Value.bool false),
                           ("error", Value.str reason)]
    Except.ok (match exc_info with
      | some (Exc.badRequest kwargs) =>
          if kwargs.isEmpty then message else dictUpdate message kwargs
      | _ => message)

/-- Whether the formatter run produced an envelope at all. -/
def producesEnvelope (r : Except String Dict) : Bool :=
  match r with
  | Except.ok _ => true
  | Except.error _ => false

/-! ## Helper lemmas about the option cleaner -/

theorem clean_esqb_stage_ids (e : EsqbOptions) : (clean_esqb_stage e).ids = e.ids := by
  unfold clean_esqb_stage; split <;> rfl

theorem clean_esqb_stage_q (e : EsqbOptions) : (clean_esqb_stage e).q = e.q := by
  unfold clean_esqb_stage; split <;> rfl

theorem clean_esqb_stage_idem (e : EsqbOptions) :
    clean_esqb_stage (clean_esqb_stage e) = clean_esqb_stage e := by
  unfold clean_esqb_stage
  cases h : truthy e.aggs <;> simp [h]

theorem clean_fetch_all_source (es : EsOptions) :
    (clean_fetch_all es)._source = es._source := by
  unfold clean_fetch_all; split <;> rfl

theorem clean_fetch_all_idem (es : EsOptions) :
    clean_fetch_all (clean_fetch_all es) = clean_fetch_all es := by
  unfold clean_fetch_all
  cases h : truthy es.fetch_all <;> simp [h]

theorem clean_fetch_all_set_source (es : EsOptions) (x : Option SourceFilter) :
    clean_fetch_all { es with _source := x } = { clean_fetch_all es with _source := x } := by
  unfold clean_fetch_all
  cases h : truthy es.fetch_all <;> simp [h]

theorem get_cleaned_options_ok_iff (bt m : String) (o o' : OptionSet) :
    get_cleaned_options bt m o = Except.ok o' ↔
      ∃ es t, clean_es_stage o.es = Except.ok es ∧
        clean_transform_stage bt m o.esqb o.transform = Except.ok t ∧
        o' = { control := o.control, esqb := clean_esqb_stage o.esqb,
               es := es, transform := t } := by
  unfold get_cleaned_options
  cases h1 : clean_es_stage o.es <;>
    cases h2 : clean_transform_stage bt m o.esqb o.transform <;>
      simp [eq_comm]

theorem clean_es_stage_idem (es es2 : EsOptions) (h : clean_es_stage es = Except.ok es2)
    (hs : es2._source ≠ some SourceFilter.all) : clean_es_stage es2 = Except.ok es2 := by
  unfold clean_es_stage clean_source at h
  cases hsrc : (clean_fetch_all es)._source with
  | none =>
      rw [hsrc] at h
      simp only [Except.ok.injEq] at h
      subst h
      unfold clean_es_stage clean_source
      rw [clean_fetch_all_idem, hsrc]
  | some sf =>
      cases sf with
      | fields names =>
          rw [hsrc] at h
          by_cases he : names.isEmpty = true
          · simp [he] at h
            subst h
            simp [clean_es_stage, clean_source, clean_fetch_all_set_source,
                  clean_fetch_all_idem]
          · by_cases ha : "all" ∈ names
            · simp [he, ha] at h
              subst h
              exact absurd rfl hs
            · simp [he, ha] at h
              subst h
              simp [clean_es_stage, clean_source, clean_fetch_all_idem, hsrc, he, ha]
      | all =>
          rw [hsrc] at h
          exact absurd h (by simp)

theorem clean_transform_stage_idem (bt m : String) (e e' : EsqbOptions)
    (t t2 : TransformOptions) (hids : e'.ids = e.ids) (hq : e'.q = e.q)
    (h : clean_transform_stage bt m e t = Except.ok t2) :
    clean_transform_stage bt m e' t2 = Except.ok t2 := by
  unfold clean_transform_stage at h ⊢
  rw [hids, hq]
  by_cases hm : m = "POST"
  · simp only [hm, if_true] at h ⊢
    cases hqs : py_or e.ids e.q with
    | none => rw [hqs] at h; exact absurd h (by simp)
    | some qs =>
        rw [hqs] at h
        simp only [Except.ok.injEq] at h
        subst h
        rfl
  · simp only [hm, if_false] at h ⊢
    simp only [Except.ok.injEq] at h
    subst h
    rfl

theorem clean_es_stage_source_absent (es es2 : EsOptions)
    (h : clean_es_stage es = Except.ok es2) (hsrc : es._source = none) :
    es2._source = none := by
  unfold clean_es_stage clean_source at h
  rw [clean_fetch_all_source, hsrc] at h
  simp only [Except.ok.injEq] at h
  subst h
  rw [clean_fetch_all_source, hsrc]

theorem clean_es_stage_source_empty (es es2 : EsOptions)
    (h : clean_es_stage es = Except.ok es2)
    (hsrc : es._source = some (SourceFilter.fields [])) : es2._source = none := by
  unfold clean_es_stage clean_source at h
  rw [clean_fetch_all_source, hsrc] at h
  simp only [List.isEmpty_nil, if_true, Except.ok.injEq] at h
  subst h
  rfl

theorem clean_es_stage_source_all (es es2 : EsOptions) (names : List String)
    (h : clean_es_stage es = Except.ok es2)
    (hsrc : es._source = some (SourceFilter.fields names)) (hm : "all" ∈ names) :
    es2._source = some SourceFilter.all := by
  unfold clean_es_stage clean_source at h
  rw [clean_fetch_all_source, hsrc] at h
  have hne : names ≠ [] := List.ne_nil_of_mem hm
  simp [hne, hm] at h
  subst h
  rfl

theorem get_cleaned_options_control (bt m : String) (o co : OptionSet)
    (hclean : get_cleaned_options bt m o = Except.ok co) : co.control = o.control := by
  rw [get_cleaned_options_ok_iff] at hclean
  obtain ⟨es, t, h1, h2, rfl⟩ := hclean
  rfl

/-! ## Claim theorems -/

/-- Claim C6 (confirmed): cleaning the example Option Set with biothing type
gene on a GET request removes facet_size because aggregation is disabled,
removes sort and size because fetch_all is set, injects the biothing type
into the transform stage, and leaves the control stage unchanged. -/
theorem c6_example_cleaning :
    get_cleaned_options "gene" "GET"
      { control := { raw := some false, rawquery := some false },
        esqb := { aggs := some false, facet_size := some 10 },
        es := { fetch_all := some true, sort := some "x", size := some 5 },
        transform := {} } =
    Except.ok
      { control := { raw := some false, rawquery := some false },
        esqb := { aggs := some false },
        es := { fetch_all := some true },
        transform := { biothing_type := some "gene" } } := rfl

/-- Claim C8 (confirmed): on a successful cleaning run, a present but empty
source-field filter is removed entirely, a non-empty filter containing the
sentinel "all" is replaced by boolean true, and an absent filter stays
absent. -/
theorem c8_source_filter_rules (bt m : String) (o o' : OptionSet)
    (hclean : get_cleaned_options bt m o = Except.ok o') :
    (o.es._source = some (SourceFilter.fields []) → o'.es._source = none) ∧
    (∀ names, o.es._source = some (SourceFilter.fields names) → "all" ∈ names →
        o'.es._source = some SourceFilter.all) ∧
    (o.es._source = none → o'.es._source = none) := by
  rw [get_cleaned_options_ok_iff] at hclean
  obtain ⟨es, t, h1, h2, rfl⟩ := hclean
  refine ⟨?_, ?_, ?_⟩
  · exact fun hsrc => clean_es_stage_source_empty o.es es h1 hsrc
  · exact fun names hsrc hm => clean_es_stage_source_all o.es es names h1 hsrc hm
  · exact fun hsrc => clean_es_stage_source_absent o.es es h1 hsrc

/-- Witness for C8 at a concrete input whose filter contains the sentinel. -/
theorem c8_source_filter_rules_witness :
    ({ control := {}, esqb := {}, es := { _source := some SourceFilter.all },
       transform := { biothing_type := some "gene" } } : OptionSet).es._source =
      some SourceFilter.all :=
  (c8_source_filter_rules "gene" "GET"
      { es := { _source := some (SourceFilter.fields ["x", "all"]) } }
      { control := {}, esqb := {}, es := { _source := some SourceFilter.all },
        transform := { biothing_type := some "gene" } }
      (by rfl)).2.1 ["x", "all"] (by rfl) (by decide)

/-- Claim C7 (confirmed): on a POST request whose query terms resolve to a
non-empty list, the cleaned transform stage carries exactly one template per
input term, in input order, each pairing the key query with its originating
term, plus the notfound miss template and an empty hit template. -/
theorem c7_post_templates (bt : String) (o o' : OptionSet) (qs : List String)
    (hqs : py_or o.esqb.ids o.esqb.q = some qs) (hne : qs ≠ [])
    (hclean : get_cleaned_options bt "POST" o = Except.ok o') :
    o'.transform.templates =
      some (qs.map fun term => [("query", Value.str term)]) ∧
    Option.map List.length o'.transform.templates = some qs.length ∧
    o'.transform.template_miss = some [("notfound", Value.bool true)] ∧
    o'.transform.template_hit = some ([] : Dict) := by
  rw [get_cleaned_options_ok_iff] at hclean
  obtain ⟨es, t, h2, h3, rfl⟩ := hclean
  simp [clean_transform_stage, hqs] at h3
  subst h3
  simp

/-- Witness for C7 on a two-term POST batch. -/
theorem c7_post_templates_witness :
    ({ control := {}, esqb := clean_esqb_stage { q := some ["a", "b"] },
       es := {},
       transform := { biothing_type := some "gene",
                      templates := some [[("query", Value.str "a")],
                                         [("query", Value.str "b")]],
                      template_miss := some [("notfound", Value.bool true)],
                      template_hit := some ([] : Dict) } } : OptionSet).transform.templates =
      some ((["a", "b"].map fun term => [("query", Value.str term)])) ∧
    Option.map List.length
      ({ control := {}, esqb := clean_esqb_stage { q := some ["a", "b"] },
         es := {},
         transform := { biothing_type := some "gene",
                        templates := some [[("query", Value.str "a")],
                                           [("query", Value.str "b")]],
                        template_miss := some [("notfound", Value.bool true)],
                        template_hit := some ([] : Dict) } } : OptionSet).transform.templates =
      some (["a", "b"].length) ∧
    ({ control := {}, esqb := clean_esqb_stage { q := some ["a", "b"] },
       es := {},
       transform := { biothing_type := some "gene",
                      templates := some [[("query", Value.str "a")],
                                         [("query", Value.str "b")]],
                      template_miss := some [("notfound", Value.bool true)],
                      template_hit := some ([] : Dict) } } : OptionSet).transform.template_miss =
      some [("notfound", Value.bool true)] ∧
    ({ control := {}, esqb := clean_esqb_stage { q := some ["a", "b"] },
       es := {},
       transform := { biothing_type := some "gene",
                      templates := some [[("query", Value.str "a")],
                                         [("query", Value.str "b")]],
                      template_miss := some [("notfound", Value.bool true)],
                      template_hit := some ([] : Dict) } } : OptionSet).transform.template_hit =
      some ([] : Dict) :=
  c7_post_templates "gene" { esqb := { q := some ["a", "b"] } } _ ["a", "b"]
    (by rfl) (by decide) (by rfl)

/-- Claim C10 (confirmed): on a POST request carrying both a non-empty ids
option and a non-empty q option, the echo templates are built from ids and q
is ignored. -/
theorem c10_ids_precedence (bt : String) (o o' : OptionSet) (l qs : List String)
    (hids : o.esqb.ids = some l) (hl : l ≠ []) (hq : o.esqb.q = some qs)
    (hqne : qs ≠ []) (hclean : get_cleaned_options bt "POST" o = Except.ok o') :
    o'.transform.templates = some (l.map fun term => [("query", Value.str term)]) := by
  have hor : py_or o.esqb.ids o.esqb.q = some l := by
    rw [hids]
    simp [py_or, hl]
  rw [get_cleaned_options_ok_iff] at hclean
  obtain ⟨es, t, h2, h3, rfl⟩ := hclean
  simp [clean_transform_stage, hor] at h3
  subst h3
  rfl

/-- Witness for C10: ids wins over q on a POST batch. -/
theorem c10_ids_precedence_witness :
    ({ control := {}, esqb := clean_esqb_stage { ids := some ["i1"], q := some ["qq"] },
       es := {},
       transform := { biothing_type := some "gene",
                      templates := some [[("query", Value.str "i1")]],
                      template_miss := some [("notfound", Value.bool true)],
                      template_hit := some ([] : Dict) } } : OptionSet).transform.templates =
      some (["i1"].map fun term => [("query", Value.str term)]) :=
  c10_ids_precedence "gene" { esqb := { ids := some ["i1"], q := some ["qq"] } } _
    ["i1"] ["qq"] (by rfl) (by decide) (by rfl) (by decide) (by rfl)

/-- Claim C2 (counterexample): cleaning is not idempotent on the set whose
source filter held the sentinel "all". The first pass replaces the filter by
boolean true; the second pass then evaluates a membership test on that
boolean and raises a TypeError instead of being a no-op. -/
theorem c2_counterexample :
    get_cleaned_options "gene" "GET"
        { es := { _source := some (SourceFilter.fields ["all"]) } } =
      Except.ok { es := { _source := some SourceFilter.all },
                  transform := { biothing_type := some "gene" } } ∧
    get_cleaned_options "gene" "GET"
        { es := { _source := some SourceFilter.all },
          transform := { biothing_type := some "gene" } } =
      Except.error "TypeError: argument of type bool is not iterable" :=
  ⟨rfl, rfl⟩

/-- Claim C2 (amended): re-cleaning a cleaned Option Set with the same
biothing type and request method is a no-op, provided the cleaned set did not
end up with the boolean-true source filter; in that one case the second pass
raises instead. -/
theorem c2_clean_idempotent (bt m : String) (o o' : OptionSet)
    (hclean : get_cleaned_options bt m o = Except.ok o')
    (hsrc : o'.es._source ≠ some SourceFilter.all) :
    get_cleaned_options bt m o' = Except.ok o' := by
  rw [get_cleaned_options_ok_iff] at hclean
  obtain ⟨es, t, h1, h2, rfl⟩ := hclean
  rw [get_cleaned_options_ok_iff]
  refine ⟨es, t, ?_, ?_, ?_⟩
  · exact clean_es_stage_idem o.es es h1 hsrc
  · exact clean_transform_stage_idem bt m o.esqb (clean_esqb_stage o.esqb) o.transform t
      (clean_esqb_stage_ids o.esqb) (clean_esqb_stage_q o.esqb) h2
  · simp [clean_esqb_stage_idem]

/-- Witness for the amended C2 at a concrete cleaned set. -/
theorem c2_clean_idempotent_witness :
    get_cleaned_options "gene" "GET"
        { control := {}, esqb := { aggs := some false },
          es := { _source := some (SourceFilter.fields ["x"]) },
          transform := { biothing_type := some "gene" } } =
      Except.ok
        { control := {}, esqb := { aggs := some false },
          es := { _source := some (SourceFilter.fields ["x"]) },
          transform := { biothing_type := some "gene" } } :=
  c2_clean_idempotent "gene" "GET"
    { esqb := { aggs := some false, facet_size := some 3 },
      es := { _source := some (SourceFilter.fields ["x"]) } }
    { control := {}, esqb := { aggs := some false },
      es := { _source := some (SourceFilter.fields ["x"]) },
      transform := { biothing_type := some "gene" } }
    (by rfl) (by decide)

/-! ## Pipeline helper lemmas -/

theorem execute_pipeline_ok (ws : WebSettings) (bt m : String) (o co : OptionSet)
    (hclean : get_cleaned_options bt m o = Except.ok co) :
    execute_pipeline ws bt m o =
      if truthy co.control.rawquery then
        Except.ok ((ws.query_builder_build co.esqb).to_dict, [Stage.build])
      else if truthy co.control.raw then
        Except.ok (ws.query_backend_execute (ws.query_builder_build co.esqb) co.es bt,
                   [Stage.build, Stage.execute])
      else
        Except.ok (ws.query_transform_transform
            (ws.query_backend_execute (ws.query_builder_build co.esqb) co.es bt)
            co.transform,
          [Stage.build, Stage.execute, Stage.transform]) := by
  unfold execute_pipeline pre_query_builder_hook pre_query_hook pre_transform_hook
    pre_finish_hook
  rw [hclean]
  cases hq : truthy co.control.rawquery <;> cases hr : truthy co.control.raw <;>
    simp [hq, hr]

/-- A demo set of collaborators used by concrete pipeline runs below: the
builder, backend and transformer return distinct constant payloads so their
contributions are observable in the response. -/
def demoSettings : WebSettings :=
  { query_builder_build := fun _ => { to_dict := Value.str "QUERY" }
    query_backend_execute := fun _ _ _ => Value.str "RESULT"
    query_transform_transform := fun _ _ => Value.str "TRANSFORMED" }

/-- Claim C1 (counterexample): a run with raw true but also rawquery true
short-circuits at the pre-query hook: the emitted response is the query in
plain serializable form, while the backend, which can only ever produce the
distinct payload RESULT, is never even invoked — so the response does not
equal the raw backend result. -/
theorem c1_counterexample :
    truthy ({ control := { raw := some true, rawquery := some true } } :
        OptionSet).control.raw = true ∧
    execute_pipeline demoSettings "gene" "GET"
        { control := { raw := some true, rawquery := some true } } =
      Except.ok (Value.str "QUERY", [Stage.build]) ∧
    demoSettings.query_backend_execute { to_dict := Value.str "QUERY" } {} "gene" =
      Value.str "RESULT" ∧
    Value.str "QUERY" ≠ Value.str "RESULT" ∧
    Stage.execute ∉ [Stage.build] :=
  ⟨rfl, rfl, rfl, by decide, by decide⟩

/-- Claim C1 (amended): on every pipeline run that cleans successfully, with
raw truthy and rawquery not truthy, the emitted response is exactly the raw
backend result and the result transformer is never invoked. -/
theorem c1_raw_short_circuit (ws : WebSettings) (bt m : String) (o co : OptionSet)
    (hclean : get_cleaned_options bt m o = Except.ok co)
    (hraw : truthy o.control.raw = true)
    (hrq : truthy o.control.rawquery = false) :
    execute_pipeline ws bt m o =
      Except.ok (ws.query_backend_execute (ws.query_builder_build co.esqb) co.es bt,
                 [Stage.build, Stage.execute]) ∧
    Stage.transform ∉ [Stage.build, Stage.execute] := by
  have hc := get_cleaned_options_control bt m o co hclean
  constructor
  · rw [execute_pipeline_ok ws bt m o co hclean, hc, hraw, hrq]
    simp
  · simp

/-- Witness for the amended C1: raw-only run emits the backend result with
no transform stage. -/
theorem c1_raw_short_circuit_witness :
    execute_pipeline demoSettings "gene" "GET" { control := { raw := some true } } =
      Except.ok (Value.str "RESULT", [Stage.build, Stage.execute]) ∧
    Stage.transform ∉ [Stage.build, Stage.execute] :=
  c1_raw_short_circuit demoSettings "gene" "GET"
    { control := { raw := some true } }
    { control := { raw := some true }, esqb := {}, es := {},
      transform := { biothing_type := some "gene" } }
    (by rfl) (by rfl) (by rfl)

/-- Claim C4 (confirmed): on every pipeline run that cleans successfully with
rawquery truthy, the emitted response is exactly the built query in its plain
serializable to_dict form, and the backend execute step never runs. -/
theorem c4_rawquery_short_circuit (ws : WebSettings) (bt m : String)
    (o co : OptionSet) (hclean : get_cleaned_options bt m o = Except.ok co)
    (hrq : truthy o.control.rawquery = true) :
    execute_pipeline ws bt m o =
      Except.ok ((ws.query_builder_build co.esqb).to_dict, [Stage.build]) ∧
    Stage.execute ∉ [Stage.build] := by
  have hc := get_cleaned_options_control bt m o co hclean
  constructor
  · rw [execute_pipeline_ok ws bt m o co hclean, hc, hrq]
    simp
  · simp

/-- Witness for C4: a rawquery run emits the serialized query and no
execute stage. -/
theorem c4_rawquery_short_circuit_witness :
    execute_pipeline demoSettings "gene" "GET"
        { control := { rawquery := some true } } =
      Except.ok (Value.str "QUERY", [Stage.build]) ∧
    Stage.execute ∉ [Stage.build] :=
  c4_rawquery_short_circuit demoSettings "gene" "GET"
    { control := { rawquery := some true } }
    { control := { rawquery := some true }, esqb := {}, es := {},
      transform := { biothing_type := some "gene" } }
    (by rfl) (by rfl)

/-! ## Dict lemmas for the error formatter -/

theorem dictGet_map_overwrite (d : Dict) (k key : String) (v : Value) (h : k ≠ key) :
    dictGet (d.map fun p => if p.1 = k then (k, v) else p) key = dictGet d key := by
  induction d with
  | nil => rfl
  | cons p rest ih =>
      by_cases hp : p.1 = k
      · simp only [List.map_cons, hp, if_true, dictGet]
        rw [if_neg h, if_neg (hp ▸ h), ih]
      · simp only [List.map_cons, hp, if_false, dictGet]
        by_cases hk : p.1 = key
        · rw [if_pos hk, if_pos hk]
        · rw [if_neg hk, if_neg hk, ih]

theorem dictGet_append_single (d : Dict) (k key : String) (v : Value) (h : k ≠ key) :
    dictGet (d ++ [(k, v)]) key = dictGet d key := by
  induction d with
  | nil => simp [dictGet, h]
  | cons p rest ih =>
      show (if p.1 = key then some p.2 else dictGet (rest ++ [(k, v)]) key) =
        (if p.1 = key then some p.2 else dictGet rest key)
      rw [ih]

theorem dictGet_setKey_ne (d : Dict) (k key : String) (v : Value) (h : k ≠ key) :
    dictGet (setKey d k v) key = dictGet d key := by
  unfold setKey
  split
  · exact dictGet_map_overwrite d k key v h
  · exact dictGet_append_single d k key v h

theorem dictGet_dictUpdate_ne (d upd : Dict) (key : String)
    (h : ∀ p ∈ upd, p.1 ≠ key) : dictGet (dictUpdate d upd) key = dictGet d key := by
  induction upd generalizing d with
  | nil => rfl
  | cons p rest ih =>
      have hstep : dictUpdate d (p :: rest) = dictUpdate (setKey d p.1 p.2) rest := rfl
      rw [hstep, ih (setKey d p.1 p.2) (fun q hq => h q (List.mem_cons_of_mem _ hq)),
          dictGet_setKey_ne d p.1 key p.2 (h p (List.mem_cons_self p rest))]

/-- Claim C9 (confirmed): the formatter produces an envelope exactly when the
resolved reason contains no line-break character; with a line break the
single-line assertion raises first and no envelope is produced. -/
theorem c9_newline_assertion (status_code : Nat) (reasonArg : Option String)
    (defaultReason : String) (exc_info : Option Exc) :
    producesEnvelope (write_error status_code reasonArg defaultReason exc_info) =
      !containsNewline (resolveReason reasonArg defaultReason) := by
  cases h : containsNewline (resolveReason reasonArg defaultReason) <;>
    simp [write_error, producesEnvelope, h]

/-- Claim C3 (counterexample): a bad-request error whose structured extras
carry a success key overwrites the envelope value: the produced envelope
holds success true, not false. -/
theorem c3_counterexample :
    write_error 400 (some "bad") "Bad Request"
        (some (Exc.badRequest [("success", Value.bool true)])) =
      Except.ok [("code", Value.nat 400), ("success", Value.bool true),
                 ("error", Value.str "bad")] ∧
    dictGet [("code", Value.nat 400), ("success", Value.bool true),
             ("error", Value.str "bad")] "success" ≠ some (Value.bool false) :=
  ⟨rfl, by decide⟩

/-- Claim C3 (amended): every envelope the formatter produces holds success
false, provided the structured extras of a bad-request error do not
themselves use the success key. -/
theorem c3_success_false (status_code : Nat) (reasonArg : Option String)
    (defaultReason : String) (exc_info : Option Exc) (env : Dict)
    (hk : ∀ p ∈ excExtras exc_info, p.1 ≠ "success")
    (hok : write_error status_code reasonArg defaultReason exc_info = Except.ok env) :
    dictGet env "success" = some (Value.bool false) := by
  simp only [write_error] at hok
  by_cases hnl : containsNewline (resolveReason reasonArg defaultReason) = true
  · rw [if_pos hnl] at hok
    exact absurd hok (by simp)
  · rw [if_neg hnl] at hok
    simp only [Except.ok.injEq] at hok
    subst hok
    cases exc_info with
    | none => rfl
    | some e =>
        cases e with
        | generic => rfl
        | badRequest kwargs =>
            dsimp only
            by_cases hkw : kwargs.isEmpty = true
            · rw [if_pos hkw]
              rfl
            · rw [if_neg hkw]
              rw [dictGet_dictUpdate_ne _ kwargs "success" (by exact hk)]
              rfl

/-- Witness for the amended C3: a bad-request error with a keyword extra
still yields success false. -/
theorem c3_success_false_witness :
    dictGet [("code", Value.nat 400), ("success", Value.bool false),
             ("error", Value.str "bad"), ("keyword", Value.str "q")] "success" =
      some (Value.bool false) :=
  c3_success_false 400 (some "bad") "Bad Request"
    (some (Exc.badRequest [("keyword", Value.str "q")]))
    [("code", Value.nat 400), ("success", Value.bool false),
     ("error", Value.str "bad"), ("keyword", Value.str "q")]
    (by decide) (by rfl)

/-- Claim C5 (counterexample): with a reason containing a line break the
formatter raises and produces no envelope at all, so it does not produce the
base envelope for every status code and error. -/
theorem c5_counterexample :
    write_error 503 (some "time\nout") "Service Unavailable" none =
      Except.error "AssertionError" ∧
    write_error 503 (some "time\nout") "Service Unavailable" none ≠
      Except.ok [("code", Value.nat 503), ("success", Value.bool false),
                 ("error", Value.str "time\nout")] :=
  ⟨rfl, fun h => nomatch h⟩

/-- Claim C5 (amended): for every status code and error whose resolved reason
has no line break and which carries no structured extras, the produced
envelope is exactly code, success false and error, with the reason being the
message when present and the default reason otherwise. -/
theorem c5_base_envelope (status_code : Nat) (reasonArg : Option String)
    (defaultReason : String) (exc_info : Option Exc)
    (hnl : containsNewline (resolveReason reasonArg defaultReason) = false)
    (hex : excExtras exc_info = []) :
    write_error status_code reasonArg defaultReason exc_info =
      Except.ok [("code", Value.nat status_code), ("success", Value.bool false),
                 ("error", Value.str (resolveReason reasonArg defaultReason))] := by
  simp only [write_error]
  rw [if_neg (by simp [hnl])]
  cases exc_info with
  | none => rfl
  | some e =>
      cases e with
      | generic => rfl
      | badRequest kwargs =>
          simp only [excExtras] at hex
          subst hex
          rfl

/-- Witness for the amended C5: the 503 service-unavailable example produces
exactly the expected envelope. -/
theorem c5_base_envelope_witness :
    write_error 503 (some "timeout") "Service Unavailable" none =
      Except.ok [("code", Value.nat 503), ("success", Value.bool false),
                 ("error", Value.str "timeout")] :=
  c5_base_envelope 503 (some "timeout") "Service Unavailable" none (by rfl) rfl

end Biothings
